import Mathlib

/-!
Verification development for the FinIQ.ai pipeline orchestrator and
full-pipeline result cache.

The repository ships the Next.js frontend sources together with the design
documentation of the Python backend (`backend/utils/cache.py`,
`backend/orchestrator/chain_manager.py`), whose sources are not part of the
checkout.  The backend components are therefore modelled from the
specification; the TypeScript route handlers are embedded directly from
their sources (`src/app/api/finance-strategy/route.ts`).
-/

namespace FinIQ

/-! ## Request model -/

/-- Modelled from the spec: the inbound request object (§3, §6) of the
missing backend `backend/utils/data_validation.py` — the startup-description
fields plus the volatile fields (caller identifier, request timestamp, trace
id) that must be excluded before normalization.  Text fields arrive as raw
strings, possibly with surrounding whitespace; numeric fields arrive as
numeric-looking strings. -/
structure RawRequest where
  startupName : String
  oneLineDescription : String
  ideaDescription : String
  industry : String
  targetMarket : String
  geography : String
  teamSize : String
  productStage : String
  monthlyRevenue : String
  growthRate : String
  tractionSummary : String
  businessModel : String
  fundingGoal : String
  mainFinancialConcern : String
  user_id : String
  timestamp : String
  trace_id : String
  deriving DecidableEq, Repr

/-- Modelled from the spec: the canonical, normalized Request Record (§3) of
the missing backend — a flat mapping of the semantic fields only, with text
trimmed and numeric-looking strings coerced to numbers. -/
structure RequestRecord where
  startupName : String
  oneLineDescription : String
  ideaDescription : String
  industry : String
  targetMarket : String
  geography : String
  teamSize : Nat
  productStage : String
  monthlyRevenue : Nat
  growthRate : Nat
  tractionSummary : String
  businessModel : String
  fundingGoal : String
  mainFinancialConcern : String
  deriving DecidableEq, Repr

/-- Strip leading and trailing whitespace from a character list. -/
def trimChars (l : List Char) : List Char :=
  ((l.dropWhile Char.isWhitespace).reverse.dropWhile
    Char.isWhitespace).reverse

/-- Whitespace trimming of a string (the normalizer's `trim`), written over
the underlying character list so it is executable by evaluation. -/
def strim (s : String) : String :=
  ⟨trimChars s.data⟩

/-- Parse a non-empty all-digit character list as a natural number. -/
def natOfChars (l : List Char) : Option Nat :=
  if l ≠ [] ∧ l.all Char.isDigit then
    some (l.foldl (fun n c => n * 10 + (c.toNat - 48)) 0)
  else none

/-- Modelled from the spec: numeric coercion used by the Input Normalizer
(§4.1) of the missing backend — a numeric-looking string becomes a number,
anything else gets the documented default zero. -/
def coerceNat (s : String) : Nat :=
  (natOfChars (trimChars s.data)).getD 0

/-- Modelled from the spec: `normalize(raw) -> RequestRecord` (§4.1) of the
missing backend `backend/utils/cache.py` input normalization — a total
function that trims text fields, coerces numeric-looking strings to numbers,
and drops the volatile fields (`user_id`, `timestamp`, `trace_id`) so that
cache keys depend only on semantic content. -/
def normalize (raw : RawRequest) : RequestRecord where
  startupName := strim raw.startupName
  oneLineDescription := strim raw.oneLineDescription
  ideaDescription := strim raw.ideaDescription
  industry := strim raw.industry
  targetMarket := strim raw.targetMarket
  geography := strim raw.geography
  teamSize := coerceNat raw.teamSize
  productStage := strim raw.productStage
  monthlyRevenue := coerceNat raw.monthlyRevenue
  growthRate := coerceNat raw.growthRate
  tractionSummary := strim raw.tractionSummary
  businessModel := strim raw.businessModel
  fundingGoal := strim raw.fundingGoal
  mainFinancialConcern := strim raw.mainFinancialConcern

/-- Two raw requests are semantically equal (§8 Determinism) when they agree
on every semantic field up to surrounding whitespace, differing at most in
the excluded volatile fields. -/
def SemanticallyEqual (a b : RawRequest) : Prop :=
  strim a.startupName = strim b.startupName ∧
  strim a.oneLineDescription = strim b.oneLineDescription ∧
  strim a.ideaDescription = strim b.ideaDescription ∧
  strim a.industry = strim b.industry ∧
  strim a.targetMarket = strim b.targetMarket ∧
  strim a.geography = strim b.geography ∧
  strim a.teamSize = strim b.teamSize ∧
  strim a.productStage = strim b.productStage ∧
  strim a.monthlyRevenue = strim b.monthlyRevenue ∧
  strim a.growthRate = strim b.growthRate ∧
  strim a.tractionSummary = strim b.tractionSummary ∧
  strim a.businessModel = strim b.businessModel ∧
  strim a.fundingGoal = strim b.fundingGoal ∧
  strim a.mainFinancialConcern = strim b.mainFinancialConcern

instance (a b : RawRequest) : Decidable (SemanticallyEqual a b) := by
  unfold SemanticallyEqual; infer_instance

/-! ## Fingerprint generator -/

/-- Modelled from the spec: the cache schema version `CACHE_VERSION = "v1"`
of the missing `backend/utils/cache.py`. -/
def CACHE_VERSION : String := "v1"

/-- Modelled from the spec: the canonical serialization of a Request Record
(§4.2) — a deterministic field ordering (sorted keys) removing incidental
formatting differences. -/
def serializeRecord (r : RequestRecord) : String :=
  "businessModel=" ++ r.businessModel ++
  ";fundingGoal=" ++ r.fundingGoal ++
  ";geography=" ++ r.geography ++
  ";growthRate=" ++ toString r.growthRate ++
  ";ideaDescription=" ++ r.ideaDescription ++
  ";industry=" ++ r.industry ++
  ";mainFinancialConcern=" ++ r.mainFinancialConcern ++
  ";monthlyRevenue=" ++ toString r.monthlyRevenue ++
  ";oneLineDescription=" ++ r.oneLineDescription ++
  ";productStage=" ++ r.productStage ++
  ";startupName=" ++ r.startupName ++
  ";targetMarket=" ++ r.targetMarket ++
  ";teamSize=" ++ toString r.teamSize ++
  ";tractionSummary=" ++ r.tractionSummary

/-- Modelled from the spec: the 256-bit cryptographic hash of §3 of the
missing `backend/utils/cache.py` (`compute_hash` uses SHA-256), modelled as
a deterministic executable digest over the serialization, reduced modulo
2^256. -/
def digest256 (s : String) : Nat :=
  s.data.foldl (fun h c => (h * 131 + c.toNat + 1) % (2 ^ 256)) 7

/-- Hexadecimal rendering of the digest. -/
def hexDigest (n : Nat) : String :=
  ⟨Nat.toDigits 16 n⟩

/-- Modelled from the spec: `fingerprint(record) -> string` (§4.2) of the
missing `backend/utils/cache.py`, parameterized by the cache schema version:
`{cache_version}:{hex_digest}`. -/
def fingerprintV (v : String) (r : RequestRecord) : String :=
  v ++ ":" ++ hexDigest (digest256 (serializeRecord r))

/-- The fingerprint at the current cache schema version. -/
def fingerprint (r : RequestRecord) : String :=
  fingerprintV CACHE_VERSION r

/-! ## Execution log and Report -/

/-- Modelled from the spec: per-step status in an Execution Log Entry (§3)
of the missing `backend/orchestrator/chain_manager.py`. -/
inductive StepStatus where
  | ok
  | fallback
  | failed
  deriving DecidableEq, Repr

/-- Modelled from the spec: one Execution Log Entry (§3) — step name, status
and duration (an optional error description is subsumed by the status). -/
structure LogEntry where
  name : String
  status : StepStatus
  duration : Nat
  deriving DecidableEq, Repr

/-- Modelled from the spec: the Report metadata block (§3, §6) of the
missing backend — execution time, timestamp, ordered list of executed step
names, the Execution Log, the `cached` flag and, on cache hits, the
retrieval time. -/
structure Metadata where
  cached : Bool
  execution_time_seconds : Nat
  timestamp : Nat
  agents_executed : List String
  execution_log : List LogEntry
  cache_retrieval_time_seconds : Option Nat
  deriving DecidableEq, Repr

/-- Modelled from the spec: the externally visible Report (§3) built by
`_build_output()` of the missing `backend/orchestrator/chain_manager.py` —
one named section per step's contribution, a synthesized summary, and the
metadata block. -/
structure Report where
  startup_name : String
  idea_understanding : String
  funding_stage : String
  raise_amount : String
  investor_type : String
  runway : String
  financial_priority : String
  summary : String
  metadata : Metadata
  deriving DecidableEq, Repr

/-! ## Cache store -/

/-- Association-list lookup used by both cache backends (keys are
fingerprint strings). -/
def alistGet {β : Type} (m : List (String × β)) (k : String) : Option β :=
  match m with
  | [] => none
  | (k', v) :: rest => if k' = k then some v else alistGet rest k

/-- Association-list insert with overwrite semantics: the new binding
shadows any previous binding of the same key. -/
def alistPut {β : Type} (m : List (String × β)) (k : String) (v : β) :
    List (String × β) :=
  (k, v) :: m

/-- Modelled from the spec: a primary-backend entry — the primary backend
has native TTL support (§4.3), so an entry carries its expiry instant. -/
structure PrimaryEntry where
  report : Report
  expires_at : Nat
  deriving DecidableEq, Repr

/-- Modelled from the spec: the serialized payload stored by the fallback
backend; `corrupt` stands for an unparsable blob (§4.3: `get` must detect
and drop corrupted entries). -/
inductive StoredBlob where
  | good (r : Report)
  | corrupt
  deriving DecidableEq, Repr

/-- Modelled from the spec: one durable fallback record per fingerprint
(§6): the serialized payload plus an explicit version, stored-at and TTL so
expiry can be checked without filesystem metadata. -/
structure FallbackEntry where
  blob : StoredBlob
  version : String
  stored_at : Nat
  ttl : Nat
  deriving DecidableEq, Repr

/-- Modelled from the spec: the Cache Store state (§4.3) of the missing
`backend/utils/cache.py` — a primary backend (shared key/value store with
native TTL) and a fallback backend (one durable record per fingerprint),
each with an availability flag standing for connection/operation errors
(`false` means every operation on that backend raises, and the error is
caught by the store). -/
structure CacheState where
  primaryUp : Bool
  fallbackUp : Bool
  primary : List (String × PrimaryEntry)
  fallback : List (String × FallbackEntry)
  deriving DecidableEq, Repr

/-- Modelled from the spec: a read on the primary backend — native TTL
means an expired entry is simply absent. -/
def primaryGet (m : List (String × PrimaryEntry)) (now : Nat) (k : String) :
    Option Report :=
  match alistGet m k with
  | none => none
  | some e => if now < e.expires_at then some e.report else none

/-- Modelled from the spec: a read on the fallback backend (§4.3) — the
entry's expiry is enforced manually from the stored expiry data, and
corrupted or version-mismatched entries are treated as a miss rather than
returned. -/
def fallbackGet (m : List (String × FallbackEntry)) (now : Nat)
    (k : String) : Option Report :=
  match alistGet m k with
  | none => none
  | some e =>
      if e.version = CACHE_VERSION then
        if now < e.stored_at + e.ttl then
          match e.blob with
          | .good r => some r
          | .corrupt => none
        else none
      else none

/-- Modelled from the spec: `get(fingerprint) -> Report | absent` (§4.3) of
the missing `backend/utils/cache.py` (`cache_get`): try the primary first;
a primary error (modelled by `primaryUp = false`) is caught and the call
transparently proceeds on the fallback; a fallback error too degrades to a
miss, never raising to the caller. -/
def cache_get (st : CacheState) (now : Nat) (k : String) : Option Report :=
  if st.primaryUp then primaryGet st.primary now k
  else if st.fallbackUp then fallbackGet st.fallback now k
  else none

/-- Modelled from the spec: `set(fingerprint, report, ttl)` (§4.3) of the
missing `backend/utils/cache.py` (`cache_set`): write the full serialized
payload to the primary with native TTL; on a primary error fall back to one
durable record carrying version, stored-at and TTL; on a fallback error too
the write degrades to a no-op, never raising to the caller. -/
def cache_set (st : CacheState) (now : Nat) (k : String) (r : Report)
    (ttl : Nat) : CacheState :=
  if st.primaryUp then
    { st with primary := alistPut st.primary k ⟨r, now + ttl⟩ }
  else if st.fallbackUp then
    { st with fallback :=
        alistPut st.fallback k ⟨.good r, CACHE_VERSION, now, ttl⟩ }
  else st

/-! ## Pipeline orchestrator -/

/-- Modelled from the spec: the per-run shared Context (§3) — a mutable,
append-only mapping built during one pipeline run, starting with the input
record and gaining one named entry per step. -/
abbrev Context := List (String × String)

/-- Modelled from the spec: the fixed ordered step sequence (§4.5) of the
missing `backend/orchestrator/chain_manager.py`. -/
def agentName : Fin 6 → String
  | 0 => "IdeaUnderstandingAgent"
  | 1 => "FundingStageAgent"
  | 2 => "RaiseAmountAgent"
  | 3 => "InvestorTypeAgent"
  | 4 => "RunwayAgent"
  | 5 => "FinancialPriorityAgent"

/-- The ordered list of the six step names. -/
def agentNames : List String :=
  ["IdeaUnderstandingAgent", "FundingStageAgent", "RaiseAmountAgent",
   "InvestorTypeAgent", "RunwayAgent", "FinancialPriorityAgent"]

/-- Modelled from the spec: the context key each step's named output is
merged under (§4.4). -/
def stepKey : Fin 6 → String
  | 0 => "idea_profile"
  | 1 => "funding_stage"
  | 2 => "raise_amount"
  | 3 => "investor_type"
  | 4 => "runway"
  | 5 => "financial_priority"

/-- Modelled from the spec: the run environment — the external
generative-text service is a black-box function text-in/text-out that may
fail or time out (§1): each step's call receives the shared context built
so far and returns either its text output or `none` on failure; the
environment also carries the wall-clock data used for metadata (per-step
durations, cache retrieval time, current timestamp). -/
structure AgentEnv where
  result : Fin 6 → Context → Option String
  duration : Fin 6 → Nat
  retrievalTime : Nat
  now : Nat

/-- Modelled from the spec: the heuristic, rule-based fallback profile for
the first step (§4.4) — computed from the raw record alone, with no
external call: capital intensity, burn pattern, operational complexity and
regulatory risk derived from the record's fields. -/
def heuristicProfile (r : RequestRecord) : String :=
  let capitalIntensity :=
    if r.industry = "Infrastructure" ∨ r.industry = "Hardware" ∨
        r.industry = "Biotech" then "high" else "moderate"
  let burnProfile :=
    if 10 ≤ r.teamSize then "high"
    else if 4 ≤ r.teamSize then "medium" else "low"
  let complexity :=
    if r.businessModel = "Marketplace" ∨ r.businessModel = "Hardware" then
      "high" else "moderate"
  let regulationRisk :=
    if r.industry = "Fintech" ∨ r.industry = "Healthcare" ∨
        r.industry = "Biotech" then "high" else "low"
  "category=" ++ r.industry ++
  ";capital_intensity=" ++ capitalIntensity ++
  ";burn_profile=" ++ burnProfile ++
  ";operational_complexity=" ++ complexity ++
  ";regulation_risk=" ++ regulationRisk

/-- Modelled from the spec: the explicit placeholder a non-critical step's
report section is populated with when the step fails (§4.4). -/
def unavailablePlaceholder : String := "unavailable"

/-- Modelled from the spec: one step execution (§4.4) — the step's external
call is attempted with the context built so far; on success its output is
the section text with status `ok`; on failure the first step is replaced by
the heuristic fallback profile with status `fallback`, every other step by
the explicit placeholder with status `failed`. -/
def pipelineStep (env : AgentEnv) (r : RequestRecord) (ctx : Context)
    (i : Fin 6) : String × StepStatus :=
  match env.result i ctx with
  | some o => (o, .ok)
  | none =>
      if i = 0 then (heuristicProfile r, .fallback)
      else (unavailablePlaceholder, .failed)

/-- The initial context of a run: `{input: record}` (§4.5). -/
def ctx0 (r : RequestRecord) : Context :=
  [("input", serializeRecord r)]

/-- Output and status of the first step. -/
def out0 (env : AgentEnv) (r : RequestRecord) : String × StepStatus :=
  pipelineStep env r (ctx0 r) 0

/-- Context after the first step's output is merged in. -/
def ctx1 (env : AgentEnv) (r : RequestRecord) : Context :=
  ctx0 r ++ [(stepKey 0, (out0 env r).1)]

/-- Output and status of the second step. -/
def out1 (env : AgentEnv) (r : RequestRecord) : String × StepStatus :=
  pipelineStep env r (ctx1 env r) 1

/-- Context after the second step. -/
def ctx2 (env : AgentEnv) (r : RequestRecord) : Context :=
  ctx1 env r ++ [(stepKey 1, (out1 env r).1)]

/-- Output and status of the third step. -/
def out2 (env : AgentEnv) (r : RequestRecord) : String × StepStatus :=
  pipelineStep env r (ctx2 env r) 2

/-- Context after the third step. -/
def ctx3 (env : AgentEnv) (r : RequestRecord) : Context :=
  ctx2 env r ++ [(stepKey 2, (out2 env r).1)]

/-- Output and status of the fourth step. -/
def out3 (env : AgentEnv) (r : RequestRecord) : String × StepStatus :=
  pipelineStep env r (ctx3 env r) 3

/-- Context after the fourth step. -/
def ctx4 (env : AgentEnv) (r : RequestRecord) : Context :=
  ctx3 env r ++ [(stepKey 3, (out3 env r).1)]

/-- Output and status of the fifth step. -/
def out4 (env : AgentEnv) (r : RequestRecord) : String × StepStatus :=
  pipelineStep env r (ctx4 env r) 4

/-- Context after the fifth step. -/
def ctx5 (env : AgentEnv) (r : RequestRecord) : Context :=
  ctx4 env r ++ [(stepKey 4, (out4 env r).1)]

/-- Output and status of the sixth step. -/
def out5 (env : AgentEnv) (r : RequestRecord) : String × StepStatus :=
  pipelineStep env r (ctx5 env r) 5

/-- The section text each step contributed, indexed by step. -/
def stepOut (env : AgentEnv) (r : RequestRecord) : Fin 6 → String
  | 0 => (out0 env r).1
  | 1 => (out1 env r).1
  | 2 => (out2 env r).1
  | 3 => (out3 env r).1
  | 4 => (out4 env r).1
  | 5 => (out5 env r).1

/-- The Execution Log status of each step. -/
def stepStat (env : AgentEnv) (r : RequestRecord) : Fin 6 → StepStatus
  | 0 => (out0 env r).2
  | 1 => (out1 env r).2
  | 2 => (out2 env r).2
  | 3 => (out3 env r).2
  | 4 => (out4 env r).2
  | 5 => (out5 env r).2

/-- Modelled from the spec: the synthesized human-readable summary (§4.6) —
simple templated concatenation of the most important figures already
present in context, no additional external call. -/
def mkSummary (env : AgentEnv) (r : RequestRecord) : String :=
  "For " ++ r.startupName ++ ": stage " ++ stepOut env r 1 ++
  ", raise " ++ stepOut env r 2 ++ ", runway " ++ stepOut env r 4 ++ "."

/-- Modelled from the spec: one full pipeline run on a cache miss (§4.5
steps 4-5) of the missing `backend/orchestrator/chain_manager.py`:
initialize the context with the input record, execute the six steps in
order — each step's output merged into the context immediately so later
steps see it — record one Execution Log Entry per step, and assemble the
Report with `metadata.cached = false`. -/
def runPipeline (env : AgentEnv) (r : RequestRecord) : Report where
  startup_name := r.startupName
  idea_understanding := stepOut env r 0
  funding_stage := stepOut env r 1
  raise_amount := stepOut env r 2
  investor_type := stepOut env r 3
  runway := stepOut env r 4
  financial_priority := stepOut env r 5
  summary := mkSummary env r
  metadata :=
    { cached := false
      execution_time_seconds :=
        env.duration 0 + env.duration 1 + env.duration 2 +
        env.duration 3 + env.duration 4 + env.duration 5
      timestamp := env.now
      agents_executed := agentNames
      execution_log :=
        [⟨agentName 0, stepStat env r 0, env.duration 0⟩,
         ⟨agentName 1, stepStat env r 1, env.duration 1⟩,
         ⟨agentName 2, stepStat env r 2, env.duration 2⟩,
         ⟨agentName 3, stepStat env r 3, env.duration 3⟩,
         ⟨agentName 4, stepStat env r 4, env.duration 4⟩,
         ⟨agentName 5, stepStat env r 5, env.duration 5⟩]
      cache_retrieval_time_seconds := none }

/-- The report section contributed by each step, read back from a Report. -/
def sectionAt (rep : Report) : Fin 6 → String
  | 0 => rep.idea_understanding
  | 1 => rep.funding_stage
  | 2 => rep.raise_amount
  | 3 => rep.investor_type
  | 4 => rep.runway
  | 5 => rep.financial_priority

/-- Modelled from the spec: the Orchestrator state machine (§4.5) of the
missing `backend/orchestrator/chain_manager.py`: normalize, compute the
fingerprint, check the cache; on hit return the stored Report annotated as
cached (retrieval time added, the original execution time carried over); on
miss run the pipeline, persist the fresh Report, and return it. -/
def orchestrate (env : AgentEnv) (st : CacheState) (raw : RawRequest)
    (ttl : Nat) : Report × CacheState :=
  let record := normalize raw
  let fp := fingerprint record
  match cache_get st env.now fp with
  | some stored =>
      ({ stored with
          metadata :=
            { stored.metadata with
                cached := true
                cache_retrieval_time_seconds := some env.retrievalTime } },
        st)
  | none =>
      let rep := runPipeline env record
      (rep, cache_set st env.now fp rep ttl)

/-- The cached-independent part of a Report: every field except the timing
fields inside metadata (execution time, timestamp, per-entry durations and
retrieval time). -/
structure ReportCore where
  startup_name : String
  idea_understanding : String
  funding_stage : String
  raise_amount : String
  investor_type : String
  runway : String
  financial_priority : String
  summary : String
  cached : Bool
  agents_executed : List String
  log_names_statuses : List (String × StepStatus)
  deriving DecidableEq, Repr

/-- Erase the metadata timing fields of a Report, keeping everything else
(sections, summary, cached flag, executed step names, and the Execution
Log's names and statuses). -/
def stripTiming (rep : Report) : ReportCore where
  startup_name := rep.startup_name
  idea_understanding := rep.idea_understanding
  funding_stage := rep.funding_stage
  raise_amount := rep.raise_amount
  investor_type := rep.investor_type
  runway := rep.runway
  financial_priority := rep.financial_priority
  summary := rep.summary
  cached := rep.metadata.cached
  agents_executed := rep.metadata.agents_executed
  log_names_statuses :=
    rep.metadata.execution_log.map fun e => (e.name, e.status)

/-! ## Finance-strategy proxy route

Embedded from `src/app/api/finance-strategy/route.ts` (`POST`): the
Next.js route authenticates the session, parses the JSON payload, injects
the session's user id when the payload carries none, and forwards the
payload to the Python backend `/api/generate`. -/

/-- The session user as seen by the route handler; `id` is absent when the
session carries no user id. -/
structure SessionUser where
  id : Option String
  deriving DecidableEq, Repr

/-- A NextAuth session: `user` may be absent. -/
structure Session where
  user : Option SessionUser
  deriving DecidableEq, Repr

/-- JavaScript falsiness of an optional string value: `undefined`/`null`
and the empty string are falsy. -/
def jsFalsy : Option String → Bool
  | none => true
  | some s => s = ""

/-- The guard `!session || !session.user || !session.user.id` of the route
handler. -/
def sessionInvalid : Option Session → Bool
  | none => true
  | some s =>
      match s.user with
      | none => true
      | some u => jsFalsy u.id

/-- The user id of a session (absent when any link of
`session.user.id` is absent). -/
def sessionUserId : Option Session → Option String
  | none => none
  | some s =>
      match s.user with
      | none => none
      | some u => u.id

/-- The JSON payload POSTed to the route: an optional `user_id` plus the
remaining body fields, opaque to the proxy. -/
structure ProxyPayload where
  user_id : Option String
  rest : List (String × String)
  deriving DecidableEq, Repr

/-- The observable outcome of one call to the route handler: the HTTP
status returned, whether the request payload was read, and the payload
forwarded to the backend `/api/generate` (`none` when no fetch was
issued). -/
structure ProxyOutcome where
  status : Nat
  payloadRead : Bool
  forwarded : Option ProxyPayload
  deriving DecidableEq, Repr

/-- The `POST` handler of `src/app/api/finance-strategy/route.ts`:
check authentication first and answer 401 before reading the payload or
contacting the backend; inside the `try`, parse the body (`none` models a
body whose `request.json()` throws, caught by the handler's `catch` as a
500 without any fetch), inject `payload.user_id = session.user.id` when the
payload's `user_id` is falsy, forward to the backend and relay its status. -/
def financeStrategyPOST (session : Option Session)
    (body : Option ProxyPayload) (backendStatus : ProxyPayload → Nat) :
    ProxyOutcome :=
  if sessionInvalid session then
    { status := 401, payloadRead := false, forwarded := none }
  else
    match body with
    | none => { status := 500, payloadRead := true, forwarded := none }
    | some p =>
        let p' :=
          if jsFalsy p.user_id then
            { p with user_id := sessionUserId session }
          else p
        { status := backendStatus p', payloadRead := true,
          forwarded := some p' }

/-! ## Theorems -/

/-- Claim C1: for every pair of raw requests that are semantically equal
(differing only in the excluded volatile fields — caller identifier,
timestamp, trace id — or in surrounding whitespace of text fields), the
normalizer maps them to byte-identical Request Records, and hence
`fingerprint (normalize a) = fingerprint (normalize b)` at the same cache
schema version. -/
theorem fingerprint_deterministic (a b : RawRequest)
    (h : SemanticallyEqual a b) :
    normalize a = normalize b ∧
    fingerprint (normalize a) = fingerprint (normalize b) := by
  obtain ⟨h1, h2, h3, h4, h5, h6, h7, h8, h9, h10, h11, h12, h13, h14⟩ := h
  have h7' : trimChars a.teamSize.data = trimChars b.teamSize.data := by
    have := congrArg String.data h7
    simpa [strim] using this
  have h9' : trimChars a.monthlyRevenue.data =
      trimChars b.monthlyRevenue.data := by
    have := congrArg String.data h9
    simpa [strim] using this
  have h10' : trimChars a.growthRate.data = trimChars b.growthRate.data := by
    have := congrArg String.data h10
    simpa [strim] using this
  have hn : normalize a = normalize b := by
    simp [normalize, coerceNat, h1, h2, h3, h4, h5, h6, h7', h8, h9', h10',
      h11, h12, h13, h14]
  exact ⟨hn, by rw [hn]⟩

/-- A concrete raw request, with surrounding whitespace and volatile
fields filled in. -/
def rawA : RawRequest where
  startupName := " Acme "
  oneLineDescription := "GPU marketplace"
  ideaDescription := "GPU marketplace for AI training "
  industry := "Infrastructure"
  targetMarket := "B2B"
  geography := "US"
  teamSize := "3"
  productStage := "MVP"
  monthlyRevenue := "0"
  growthRate := "10"
  tractionSummary := "pilot"
  businessModel := "Marketplace"
  fundingGoal := "500k"
  mainFinancialConcern := "runway"
  user_id := "user-1"
  timestamp := "2025-01-01T00:00:00Z"
  trace_id := "trace-aaa"

/-- The same request as `rawA` up to whitespace and volatile fields. -/
def rawB : RawRequest where
  startupName := "Acme"
  oneLineDescription := " GPU marketplace"
  ideaDescription := "GPU marketplace for AI training"
  industry := "Infrastructure"
  targetMarket := "B2B "
  geography := "US"
  teamSize := " 3 "
  productStage := "MVP"
  monthlyRevenue := "0"
  growthRate := "10"
  tractionSummary := "pilot"
  businessModel := "Marketplace"
  fundingGoal := "500k"
  mainFinancialConcern := "runway"
  user_id := "user-2"
  timestamp := "2026-10-11T12:00:00Z"
  trace_id := "trace-bbb"

/-- Witness for C1 at the concrete pair `rawA`, `rawB`. -/
theorem fingerprint_deterministic_witness :
    SemanticallyEqual rawA rawB ∧
    (normalize rawA = normalize rawB ∧
      fingerprint (normalize rawA) = fingerprint (normalize rawB)) :=
  ⟨by decide, fingerprint_deterministic rawA rawB (by decide)⟩

/-- Claim C2: with the primary backend erroring (`primaryUp = false`), the
error is caught and `get`/`set` complete on the fallback backend — a value
just written is read back from the fallback — and when the fallback errors
too, `get` behaves as a miss and `set` as a no-op, so the call still
returns normally (both operations are total functions) and no backend
failure alters the user-facing request beyond losing caching. -/
theorem cache_failover_graceful (st : CacheState) (now now' : Nat)
    (k : String) (r : Report) (ttl : Nat)
    (hp : st.primaryUp = false) :
    (st.fallbackUp = true →
      cache_get st now k = fallbackGet st.fallback now k ∧
      (cache_set st now k r ttl).fallback =
        alistPut st.fallback k ⟨.good r, CACHE_VERSION, now, ttl⟩ ∧
      (now' < now + ttl →
        cache_get (cache_set st now k r ttl) now' k = some r)) ∧
    (st.fallbackUp = false →
      cache_get st now k = none ∧ cache_set st now k r ttl = st) := by
  constructor
  · intro hf
    refine ⟨by simp [cache_get, hp, hf], by simp [cache_set, hp, hf], ?_⟩
    intro ht
    simp [cache_set, cache_get, hp, hf, fallbackGet, alistGet, alistPut,
      ht, CACHE_VERSION]
  · intro hf
    exact ⟨by simp [cache_get, hp, hf], by simp [cache_set, hp, hf]⟩

/-- A sample Report used by concrete cache witnesses. -/
def sampleReport : Report where
  startup_name := "Acme"
  idea_understanding := "profile"
  funding_stage := "Seed"
  raise_amount := "500k"
  investor_type := "angels"
  runway := "18 months"
  financial_priority := "hiring"
  summary := "For Acme: stage Seed, raise 500k, runway 18 months."
  metadata :=
    { cached := false
      execution_time_seconds := 15
      timestamp := 100
      agents_executed := agentNames
      execution_log := []
      cache_retrieval_time_seconds := none }

/-- Witness for C2: a primary-down, fallback-up store serves a freshly
written entry from the fallback, and a store with both backends down
misses and leaves the state unchanged. -/
theorem cache_failover_graceful_witness :
    (cache_get (⟨false, true, [], []⟩ : CacheState) 0 "k" =
        fallbackGet [] 0 "k" ∧
      (cache_set (⟨false, true, [], []⟩ : CacheState) 0 "k" sampleReport
          10).fallback =
        alistPut [] "k" ⟨.good sampleReport, CACHE_VERSION, 0, 10⟩ ∧
      ((0 : Nat) < 0 + 10 →
        cache_get
          (cache_set (⟨false, true, [], []⟩ : CacheState) 0 "k"
            sampleReport 10) 0 "k" = some sampleReport)) ∧
    (cache_get (⟨false, false, [], []⟩ : CacheState) 0 "k" = none ∧
      cache_set (⟨false, false, [], []⟩ : CacheState) 0 "k" sampleReport
          10 = ⟨false, false, [], []⟩) :=
  ⟨(cache_failover_graceful ⟨false, true, [], []⟩ 0 0 "k" sampleReport 10
      rfl).1 rfl,
    (cache_failover_graceful ⟨false, false, [], []⟩ 0 0 "k" sampleReport 10
      rfl).2 rfl⟩

/-- Claim C4: reading a fingerprint immediately after writing it (before
the TTL elapses, with no intervening clear, and with at least one backend
available) returns exactly the written Report; moreover a write is atomic
from the caller's point of view — it stores the one full entry on exactly
one backend, leaving the other untouched, or nothing at all. -/
theorem cache_round_trip (st : CacheState) (now now' : Nat) (k : String)
    (r : Report) (ttl : Nat)
    (hup : st.primaryUp = true ∨ st.fallbackUp = true)
    (ht : now' < now + ttl) :
    cache_get (cache_set st now k r ttl) now' k = some r ∧
    ((cache_set st now k r ttl).primary =
        alistPut st.primary k ⟨r, now + ttl⟩ ∧
      (cache_set st now k r ttl).fallback = st.fallback ∨
      (cache_set st now k r ttl).primary = st.primary ∧
      (cache_set st now k r ttl).fallback =
        alistPut st.fallback k ⟨.good r, CACHE_VERSION, now, ttl⟩) := by
  by_cases hp : st.primaryUp = true
  · constructor
    · simp [cache_set, cache_get, hp, primaryGet, alistGet, alistPut, ht]
    · left
      exact ⟨by simp [cache_set, hp], by simp [cache_set, hp]⟩
  · have hf : st.fallbackUp = true := by
      rcases hup with h | h
      · exact absurd h hp
      · exact h
    have hp' : st.primaryUp = false := by
      cases hb : st.primaryUp
      · rfl
      · exact absurd hb hp
    constructor
    · simp [cache_set, cache_get, hp', hf, fallbackGet, alistGet, alistPut,
        ht, CACHE_VERSION]
    · right
      exact ⟨by simp [cache_set, hp', hf], by simp [cache_set, hp', hf]⟩

/-- Witness for C4 on a concrete store with the primary available. -/
theorem cache_round_trip_witness :
    cache_get
      (cache_set (⟨true, true, [], []⟩ : CacheState) 5 "v1:k" sampleReport
        3600) 6 "v1:k" = some sampleReport ∧
    ((cache_set (⟨true, true, [], []⟩ : CacheState) 5 "v1:k" sampleReport
          3600).primary =
        alistPut [] "v1:k" ⟨sampleReport, 5 + 3600⟩ ∧
      (cache_set (⟨true, true, [], []⟩ : CacheState) 5 "v1:k" sampleReport
          3600).fallback = [] ∨
      (cache_set (⟨true, true, [], []⟩ : CacheState) 5 "v1:k" sampleReport
          3600).primary = [] ∧
      (cache_set (⟨true, true, [], []⟩ : CacheState) 5 "v1:k" sampleReport
          3600).fallback =
        alistPut [] "v1:k" ⟨.good sampleReport, CACHE_VERSION, 5, 3600⟩) :=
  cache_round_trip ⟨true, true, [], []⟩ 5 6 "v1:k" sampleReport 3600
    (Or.inl rfl) (by decide)

/-- Claim C5: once the TTL of a written entry has elapsed, `get` on that
fingerprint returns absent on both backends (on the fallback this expiry is
enforced manually from the stored expiry data); moreover the fallback read
treats corrupted entries and entries with a mismatched version prefix as a
miss rather than returning them. -/
theorem cache_expiry (st : CacheState) (now now' : Nat) (k : String)
    (r : Report) (ttl : Nat)
    (ht : now + ttl ≤ now') :
    cache_get (cache_set st now k r ttl) now' k = none ∧
    (∀ (m : List (String × FallbackEntry)) (k' : String)
        (e : FallbackEntry), alistGet m k' = some e →
        e.blob = .corrupt → fallbackGet m now' k' = none) ∧
    (∀ (m : List (String × FallbackEntry)) (k' : String)
        (e : FallbackEntry), alistGet m k' = some e →
        e.version ≠ CACHE_VERSION → fallbackGet m now' k' = none) := by
  refine ⟨?_, ?_, ?_⟩
  · have ht' : ¬ now' < now + ttl := Nat.not_lt.mpr ht
    by_cases hp : st.primaryUp = true
    · simp [cache_set, cache_get, hp, primaryGet, alistGet, alistPut, ht']
    · have hp' : st.primaryUp = false := by
        cases hb : st.primaryUp
        · rfl
        · exact absurd hb hp
      by_cases hf : st.fallbackUp = true
      · simp [cache_set, cache_get, hp', hf, fallbackGet, alistGet,
          alistPut, ht']
      · have hf' : st.fallbackUp = false := by
          cases hb : st.fallbackUp
          · rfl
          · exact absurd hb hf
        simp [cache_set, cache_get, hp', hf']
  · intro m k' e he hblob
    simp [fallbackGet, he, hblob]
  · intro m k' e he hver
    simp [fallbackGet, he, hver]

/-- Appending the same string on the right is cancellative. -/
theorem strAppendCancelRight {a b s : String} (h : a ++ s = b ++ s) :
    a = b := by
  cases a with | mk da =>
  cases b with | mk db =>
  cases s with | mk ds =>
  have h2 : String.mk (da ++ ds) = String.mk (db ++ ds) := h
  injection h2 with h3
  exact congrArg String.mk (List.append_cancel_right h3)

/-- Distinct cache schema versions yield distinct fingerprints for the same
record: the version is a prefix of the fingerprint, separated by a colon
from the digest. -/
theorem fingerprintV_ne {v v' : String} (r : RequestRecord) (hv : v ≠ v') :
    fingerprintV v r ≠ fingerprintV v' r := by
  intro h
  unfold fingerprintV at h
  exact hv (strAppendCancelRight (strAppendCancelRight h))

/-- Claim C6: after an entry is cached under one version's fingerprint (on
the fallback backend here), a lookup under a different version's
fingerprint of the same semantic input misses — the two fingerprints differ
in their version prefix — while the underlying fallback record written for
the old version still physically exists in storage; the version change
itself performs no write or delete. -/
theorem version_bump_invalidates (st : CacheState) (now now' : Nat)
    (r : RequestRecord) (rep : Report) (ttl : Nat) (v v' : String)
    (hv : v ≠ v') (hp : st.primaryUp = false) (hf : st.fallbackUp = true)
    (hmiss : alistGet st.fallback (fingerprintV v' r) = none) :
    fingerprintV v r ≠ fingerprintV v' r ∧
    cache_get (cache_set st now (fingerprintV v r) rep ttl) now'
      (fingerprintV v' r) = none ∧
    alistGet (cache_set st now (fingerprintV v r) rep ttl).fallback
      (fingerprintV v r) = some ⟨.good rep, CACHE_VERSION, now, ttl⟩ := by
  have hne := fingerprintV_ne r hv
  refine ⟨hne, ?_, ?_⟩
  · simp [cache_set, cache_get, hp, hf, fallbackGet, alistPut, alistGet,
      hne, hmiss]
  · simp [cache_set, hp, hf, alistPut, alistGet]

/-- Witness for C6 on an empty primary-down store, with versions `v1` and
`v2` and the record of `rawA`. -/
theorem version_bump_invalidates_witness :
    fingerprintV "v1" (normalize rawA) ≠ fingerprintV "v2" (normalize rawA) ∧
    cache_get
      (cache_set (⟨false, true, [], []⟩ : CacheState) 0
        (fingerprintV "v1" (normalize rawA)) sampleReport 3600) 1
      (fingerprintV "v2" (normalize rawA)) = none ∧
    alistGet
      (cache_set (⟨false, true, [], []⟩ : CacheState) 0
        (fingerprintV "v1" (normalize rawA)) sampleReport 3600).fallback
      (fingerprintV "v1" (normalize rawA)) =
      some ⟨.good sampleReport, CACHE_VERSION, 0, 3600⟩ :=
  version_bump_invalidates ⟨false, true, [], []⟩ 0 1 (normalize rawA)
    sampleReport 3600 "v1" "v2" (by decide) rfl rfl rfl

/-- Witness for C5: a fresh write expires after its TTL, and a concrete
corrupted entry and a concrete version-mismatched entry both read as a
miss. -/
theorem cache_expiry_witness :
    cache_get
      (cache_set (⟨true, true, [], []⟩ : CacheState) 5 "v1:k" sampleReport
        10) 15 "v1:k" = none ∧
    (∀ (m : List (String × FallbackEntry)) (k' : String)
        (e : FallbackEntry), alistGet m k' = some e →
        e.blob = .corrupt → fallbackGet m 15 k' = none) ∧
    (∀ (m : List (String × FallbackEntry)) (k' : String)
        (e : FallbackEntry), alistGet m k' = some e →
        e.version ≠ CACHE_VERSION → fallbackGet m 15 k' = none) :=
  cache_expiry ⟨true, true, [], []⟩ 5 15 "v1:k" sampleReport 10
    (by decide)

/-- Claim C3: when the first step's external call fails on a cache-miss
run, the Orchestrator injects the heuristic, rule-based fallback profile
(computed from the record alone — `heuristicProfile` takes only the
record), records that step's Execution Log status as `fallback` rather
than `failed`, and the run still completes, returning a Report whose first
section is the heuristic fallback profile and whose log covers all six
steps. -/
theorem first_step_fallback (env : AgentEnv) (st : CacheState)
    (raw : RawRequest) (ttl : Nat)
    (hfail : env.result 0 (ctx0 (normalize raw)) = none)
    (hmiss : cache_get st env.now (fingerprint (normalize raw)) = none) :
    (orchestrate env st raw ttl).1.idea_understanding =
      heuristicProfile (normalize raw) ∧
    (orchestrate env st raw ttl).1.metadata.execution_log.head? =
      some ⟨agentName 0, .fallback, env.duration 0⟩ ∧
    (orchestrate env st raw ttl).1.metadata.execution_log.length = 6 := by
  simp only [orchestrate, hmiss]
  refine ⟨?_, ?_, rfl⟩
  · simp [runPipeline, stepOut, out0, pipelineStep, hfail]
  · simp [runPipeline, stepStat, out0, pipelineStep, hfail]

/-- A concrete run environment whose first step's call always fails and
whose other steps succeed with fixed text. -/
def envFirstFails : AgentEnv where
  result := fun i _ => if i = 0 then none else some "text"
  duration := fun _ => 2
  retrievalTime := 1
  now := 50

/-- Witness for C3: running `envFirstFails` on `rawA` against an empty
cache yields the heuristic first section, a `fallback` first log entry,
and a six-entry log. -/
theorem first_step_fallback_witness :
    (orchestrate envFirstFails ⟨true, true, [], []⟩ rawA
        3600).1.idea_understanding =
      heuristicProfile (normalize rawA) ∧
    (orchestrate envFirstFails ⟨true, true, [], []⟩ rawA
        3600).1.metadata.execution_log.head? =
      some ⟨agentName 0, .fallback, envFirstFails.duration 0⟩ ∧
    (orchestrate envFirstFails ⟨true, true, [], []⟩ rawA
        3600).1.metadata.execution_log.length = 6 :=
  first_step_fallback envFirstFails ⟨true, true, [], []⟩ rawA 3600 rfl rfl

/-- Claim C7: on a cache hit the Orchestrator returns the stored Report
annotated with `metadata.cached = true`, a retrieval time, and the original
execution time carried over unchanged from when it was first computed; on
a cache miss the returned Report carries `metadata.cached = false` together
with the execution time (the sum of the step durations), the timestamp,
the ordered list of the six executed step names, and the six-entry
Execution Log. -/
theorem report_cache_metadata (env : AgentEnv) (st : CacheState)
    (raw : RawRequest) (ttl : Nat) (stored : Report) :
    (cache_get st env.now (fingerprint (normalize raw)) = some stored →
      (orchestrate env st raw ttl).1.metadata.cached = true ∧
      (orchestrate env st raw ttl).1.metadata.cache_retrieval_time_seconds =
        some env.retrievalTime ∧
      (orchestrate env st raw ttl).1.metadata.execution_time_seconds =
        stored.metadata.execution_time_seconds) ∧
    (cache_get st env.now (fingerprint (normalize raw)) = none →
      (orchestrate env st raw ttl).1.metadata.cached = false ∧
      (orchestrate env st raw ttl).1.metadata.execution_time_seconds =
        env.duration 0 + env.duration 1 + env.duration 2 +
        env.duration 3 + env.duration 4 + env.duration 5 ∧
      (orchestrate env st raw ttl).1.metadata.timestamp = env.now ∧
      (orchestrate env st raw ttl).1.metadata.agents_executed =
        agentNames ∧
      (orchestrate env st raw ttl).1.metadata.execution_log.length = 6) := by
  constructor
  · intro h
    simp [orchestrate, h]
  · intro h
    simp [orchestrate, h, runPipeline]

/-- A cache state holding `sampleReport` in the primary under the
fingerprint of `rawA`, unexpired at time 50. -/
def stWithSample : CacheState :=
  ⟨true, true, [(fingerprint (normalize rawA), ⟨sampleReport, 100⟩)], []⟩

set_option maxRecDepth 8000 in
/-- Witness for C7, exercising both the hit side (a store holding
`sampleReport`) and the miss side (an empty store). -/
theorem report_cache_metadata_witness :
    ((orchestrate envFirstFails stWithSample rawA 3600).1.metadata.cached =
        true ∧
      (orchestrate envFirstFails stWithSample rawA
          3600).1.metadata.cache_retrieval_time_seconds =
        some envFirstFails.retrievalTime ∧
      (orchestrate envFirstFails stWithSample rawA
          3600).1.metadata.execution_time_seconds =
        sampleReport.metadata.execution_time_seconds) ∧
    ((orchestrate envFirstFails (⟨true, true, [], []⟩ : CacheState) rawA
          3600).1.metadata.cached = false ∧
      (orchestrate envFirstFails (⟨true, true, [], []⟩ : CacheState) rawA
          3600).1.metadata.execution_time_seconds =
        envFirstFails.duration 0 + envFirstFails.duration 1 +
        envFirstFails.duration 2 + envFirstFails.duration 3 +
        envFirstFails.duration 4 + envFirstFails.duration 5 ∧
      (orchestrate envFirstFails (⟨true, true, [], []⟩ : CacheState) rawA
          3600).1.metadata.timestamp = envFirstFails.now ∧
      (orchestrate envFirstFails (⟨true, true, [], []⟩ : CacheState) rawA
          3600).1.metadata.agents_executed = agentNames ∧
      (orchestrate envFirstFails (⟨true, true, [], []⟩ : CacheState) rawA
          3600).1.metadata.execution_log.length = 6) :=
  ⟨(report_cache_metadata envFirstFails stWithSample rawA 3600
      sampleReport).1 (by decide),
    (report_cache_metadata envFirstFails ⟨true, true, [], []⟩ rawA 3600
      sampleReport).2 rfl⟩

/-- Claim C8: when any step other than the first fails, its Execution Log
entry is recorded with status `failed`, the remaining steps still execute
(the log keeps one entry per step, all six step names in order), and the
Report is structurally complete with the failed step's section populated by
the explicit `unavailable` placeholder. -/
theorem other_step_failure_tolerated (env : AgentEnv) (r : RequestRecord)
    (i : Fin 6) (hi : i ≠ 0)
    (hfail : ∀ ctx, env.result i ctx = none) :
    sectionAt (runPipeline env r) i = unavailablePlaceholder ∧
    (runPipeline env r).metadata.execution_log[i.val]? =
      some ⟨agentName i, .failed, env.duration i⟩ ∧
    (runPipeline env r).metadata.execution_log.length = 6 ∧
    (runPipeline env r).metadata.agents_executed = agentNames := by
  fin_cases i
  · exact absurd rfl hi
  · have hx : env.result 1 (ctx1 env r) = none := hfail _
    exact ⟨by simp [runPipeline, sectionAt, stepOut, out1, pipelineStep, hx],
      by simp [runPipeline, stepStat, out1, pipelineStep, hx], rfl, rfl⟩
  · have hx : env.result 2 (ctx2 env r) = none := hfail _
    exact ⟨by simp [runPipeline, sectionAt, stepOut, out2, pipelineStep, hx],
      by simp [runPipeline, stepStat, out2, pipelineStep, hx], rfl, rfl⟩
  · have hx : env.result 3 (ctx3 env r) = none := hfail _
    exact ⟨by simp [runPipeline, sectionAt, stepOut, out3, pipelineStep, hx],
      by simp [runPipeline, stepStat, out3, pipelineStep, hx], rfl, rfl⟩
  · have hx : env.result 4 (ctx4 env r) = none := hfail _
    exact ⟨by simp [runPipeline, sectionAt, stepOut, out4, pipelineStep, hx],
      by simp [runPipeline, stepStat, out4, pipelineStep, hx], rfl, rfl⟩
  · have hx : env.result 5 (ctx5 env r) = none := hfail _
    exact ⟨by simp [runPipeline, sectionAt, stepOut, out5, pipelineStep, hx],
      by simp [runPipeline, stepStat, out5, pipelineStep, hx], rfl, rfl⟩

/-- A concrete run environment whose fourth step (`InvestorTypeAgent`)
always fails while every other step succeeds. -/
def envFourthFails : AgentEnv where
  result := fun i _ => if i = 3 then none else some "text"
  duration := fun _ => 2
  retrievalTime := 1
  now := 50

/-- Witness for C8 with the fourth step failing on the record of `rawA`. -/
theorem other_step_failure_tolerated_witness :
    sectionAt (runPipeline envFourthFails (normalize rawA)) 3 =
      unavailablePlaceholder ∧
    (runPipeline envFourthFails
        (normalize rawA)).metadata.execution_log[(3 : Fin 6).val]? =
      some ⟨agentName 3, .failed, envFourthFails.duration 3⟩ ∧
    (runPipeline envFourthFails
        (normalize rawA)).metadata.execution_log.length = 6 ∧
    (runPipeline envFourthFails
        (normalize rawA)).metadata.agents_executed = agentNames :=
  other_step_failure_tolerated envFourthFails (normalize rawA) 3
    (by decide) (fun _ => rfl)

/-- Claim C9: two full pipeline runs of the same never-cached request,
against the same external-service behavior, produce Reports identical in
every field except the timing fields inside metadata (execution time,
timestamp, per-entry durations, retrieval time) — the step durations,
clocks and cache states may differ arbitrarily between the two runs. -/
theorem rerun_idempotent (env env' : AgentEnv) (st st' : CacheState)
    (raw : RawRequest) (ttl ttl' : Nat)
    (hres : env.result = env'.result)
    (h1 : cache_get st env.now (fingerprint (normalize raw)) = none)
    (h2 : cache_get st' env'.now (fingerprint (normalize raw)) = none) :
    stripTiming (orchestrate env st raw ttl).1 =
      stripTiming (orchestrate env' st' raw ttl').1 := by
  simp only [orchestrate, h1, h2]
  simp [stripTiming, runPipeline, mkSummary, stepOut, stepStat, out0, out1,
    out2, out3, out4, out5, ctx1, ctx2, ctx3, ctx4, ctx5, pipelineStep,
    hres]

/-- A clone of `envFirstFails` with different timing data (durations,
retrieval time, clock). -/
def envFirstFailsLater : AgentEnv where
  result := fun i _ => if i = 0 then none else some "text"
  duration := fun _ => 9
  retrievalTime := 4
  now := 99

/-- Witness for C9: the same request run twice against empty caches with
identical step results but different clocks and durations strips to the
same core Report. -/
theorem rerun_idempotent_witness :
    stripTiming
        (orchestrate envFirstFails (⟨true, true, [], []⟩ : CacheState)
          rawA 3600).1 =
      stripTiming
        (orchestrate envFirstFailsLater (⟨false, true, [], []⟩ : CacheState)
          rawA 600).1 :=
  rerun_idempotent envFirstFails envFirstFailsLater ⟨true, true, [], []⟩
    ⟨false, true, [], []⟩ rawA 3600 600 rfl rfl rfl

/-- Claim C10: a POST to the finance-strategy route with an absent session,
an absent session user, or a falsy user id answers 401 with no payload read
and no fetch to the backend `/api/generate` (so no pipeline run or cache
access can occur for an unauthenticated caller); an authenticated caller
whose payload carries no `user_id` has the session's user id injected into
the payload before it is forwarded. -/
theorem finance_strategy_auth_guard (session : Option Session)
    (body : Option ProxyPayload) (backendStatus : ProxyPayload → Nat) :
    (sessionInvalid session = true →
      financeStrategyPOST session body backendStatus =
        ⟨401, false, none⟩) ∧
    (∀ (u : String) (p : ProxyPayload), sessionInvalid session = false →
      sessionUserId session = some u → body = some p →
      jsFalsy p.user_id = true →
      (financeStrategyPOST session body backendStatus).forwarded =
        some { p with user_id := some u } ∧
      (financeStrategyPOST session body backendStatus).payloadRead =
        true) := by
  constructor
  · intro h
    simp [financeStrategyPOST, h]
  · intro u p hval hu hb hf
    subst hb
    simp [financeStrategyPOST, hval, hf, hu]

/-- Witness for C10: a sessionless caller gets a bare 401 with no fetch,
and an authenticated caller with no `user_id` in the payload has the
session's id injected into the forwarded payload. -/
theorem finance_strategy_auth_guard_witness :
    financeStrategyPOST none (some ⟨none, [("prompt", "hi")]⟩)
        (fun _ => 200) = ⟨401, false, none⟩ ∧
    ((financeStrategyPOST (some ⟨some ⟨some "u1"⟩⟩)
          (some ⟨none, [("prompt", "hi")]⟩)
          (fun _ => 200)).forwarded =
        some ⟨some "u1", [("prompt", "hi")]⟩ ∧
      (financeStrategyPOST (some ⟨some ⟨some "u1"⟩⟩)
          (some ⟨none, [("prompt", "hi")]⟩)
          (fun _ => 200)).payloadRead = true) :=
  ⟨(finance_strategy_auth_guard none (some ⟨none, [("prompt", "hi")]⟩)
      (fun _ => 200)).1 rfl,
    (finance_strategy_auth_guard (some ⟨some ⟨some "u1"⟩⟩)
      (some ⟨none, [("prompt", "hi")]⟩) (fun _ => 200)).2 "u1"
      ⟨none, [("prompt", "hi")]⟩ rfl rfl rfl rfl⟩

end FinIQ
